import Mathlib

/-!
Shallow embedding of `src/contracts/DamSafetyMonitor.sol` (contract
`DamSafetyMonitor`, Solidity 0.8.24 with the fhevm FHE library).

Modelling conventions:
* FHE ciphertext handles (`euint32`, `ebool`) are modelled as structures
  wrapping the plaintext they stand for; the contract never performs
  homomorphic arithmetic on them, only stores and forwards them.
* Solidity `mapping`s are total functions `Nat → α` whose values start at
  the Solidity zero value of `α` (this is exactly Solidity's semantics for
  reads of unset keys).
* A reverting call (`require` failure or `FHE.checkSignatures` failure)
  is `.error e : Except SolError World`; by Solidity semantics a reverted
  call leaves every piece of contract state unchanged, which the embedding
  expresses by not returning any state on `.error`.
* `block.timestamp` and the caller's operator status are passed in as
  explicit arguments.
* `FHE.requestComputation` is an external oracle call: the request id it
  returns is supplied by the environment as an argument, and the payload it
  receives is appended to an `fheRequests` log in the world state so that
  properties about outgoing payloads can be stated.
* `FHE.checkSignatures` is modelled by an environment-supplied predicate
  `verify`, passed as an argument to `assessRisk`; the real call reverts
  when verification fails, which the model maps to `.error .invalidProof`.
* `abi.decode(results, (uint32, bool))` is modelled by passing the decoded
  pair directly (struct `AssessResults`); decoding failure is orthogonal to
  every property proved here.
* Emitted events are accumulated in an `events` list.
-/

/-- Model of fhevm `euint32`: an opaque ciphertext handle for a `uint32`.
The wrapped `val` is the plaintext the handle stands for. -/
structure Euint32 where
  val : Nat
deriving DecidableEq, Repr

/-- Model of fhevm `ebool`: an opaque ciphertext handle for a `bool`. -/
structure Ebool where
  val : Bool
deriving DecidableEq, Repr

namespace FHE

/-- `FHE.asEuint32`: trivial encryption of a `uint32` plaintext. -/
def asEuint32 (n : Nat) : Euint32 := ⟨n % 2 ^ 32⟩

/-- `FHE.asEbool`: trivial encryption of a `bool` plaintext. -/
def asEbool (b : Bool) : Ebool := ⟨b⟩

/-- `FHE.toBytes32`: the `bytes32` handle of a ciphertext, modelled by the
underlying value (the contract only copies these into request payloads). -/
def toBytes32 (c : Euint32) : Nat := c.val

/-- `FHE.decrypt` on an `ebool` (used by `hasWarning`). -/
def decrypt (c : Ebool) : Bool := c.val

end FHE

/-- Solidity struct `EncryptedSensorData` (contract lines 9–14). -/
structure EncryptedSensorData where
  encryptedSeepage : Euint32
  encryptedDeformation : Euint32
  encryptedPressure : Euint32
  timestamp : Nat
deriving DecidableEq, Repr

/-- Solidity struct `RiskAssessment` (contract lines 17–21). -/
structure RiskAssessment where
  encryptedRiskScore : Euint32
  encryptedWarningFlag : Ebool
  isAssessed : Bool
deriving DecidableEq, Repr

/-- Solidity struct `MaintenanceRecord` (contract lines 33–36). -/
structure MaintenanceRecord where
  timestamp : Nat
  action : String
deriving DecidableEq, Repr

/-- The decoded callback payload: `abi.decode(results, (uint32, bool))`. -/
structure AssessResults where
  riskScore : Nat
  warningFlag : Bool
deriving DecidableEq, Repr

/-- Opaque `bytes memory proof` argument of the callback. -/
abbrev ProofData := List Nat

/-- Events emitted by the contract (lines 40–43). -/
inductive Event where
  | SensorDataReceived (dataId : Nat) (timestamp : Nat)
  | RiskAssessmentRequested (dataId : Nat)
  | RiskWarningGenerated (dataId : Nat)
  | MaintenanceRecorded (damId : Nat) (action : String)
deriving DecidableEq, Repr

/-- Revert reasons the contract can produce. `requireFailed` carries the
`require` message string; `invalidProof` is a revert raised inside
`FHE.checkSignatures`. `unauthorized` mirrors the commented-out
`require(operators[msg.sender], "Unauthorized")` in the `onlyOperator`
modifier — the deployed code never raises it. -/
inductive SolError where
  | requireFailed (msg : String)
  | invalidProof
  | unauthorized
deriving DecidableEq, Repr

/-- One outgoing `FHE.requestComputation` call: the request id the FHE
oracle issued and the five `bytes32` ciphertext handles sent. -/
structure FheRequest where
  reqId : Nat
  payload : List Nat
deriving DecidableEq, Repr

/-- The full contract state (storage lines 24–37 of the source), plus the
observable environment interaction: outgoing FHE computation requests and
emitted events. -/
structure World where
  sensorData : Nat → EncryptedSensorData
  riskAssessments : Nat → RiskAssessment
  dataCount : Nat
  encryptedSeepageThreshold : Euint32
  encryptedDeformationThreshold : Euint32
  maintenanceHistory : Nat → List MaintenanceRecord
  fheRequests : List FheRequest
  events : List Event

/-- Write one key of a Solidity mapping. -/
def writeMap {α : Type} (m : Nat → α) (k : Nat) (v : α) : Nat → α :=
  fun x => if x = k then v else m x

/-- The contract state right after the constructor (lines 51–55): all
mappings at their Solidity zero values, thresholds at 500 and 100. -/
def deployedState : World where
  sensorData := fun _ => ⟨⟨0⟩, ⟨0⟩, ⟨0⟩, 0⟩
  riskAssessments := fun _ => ⟨⟨0⟩, ⟨false⟩, false⟩
  dataCount := 0
  encryptedSeepageThreshold := FHE.asEuint32 500
  encryptedDeformationThreshold := FHE.asEuint32 100
  maintenanceHistory := fun _ => []
  fheRequests := []
  events := []

/-- The `onlyOperator` modifier (lines 46–49). In the source the check is
commented out (`// In real implementation: require(operators[msg.sender],
"Unauthorized");`), so the modifier admits every caller. -/
def onlyOperator (_callerIsOperator : Bool) : Bool := true

/-- `submitSensorData` (lines 58–80): allocates `newId = ++dataCount`,
stores the three ciphertexts with the block timestamp, and writes the
default `RiskAssessment` for `newId`. -/
def submitSensorData (w : World) (callerIsOperator : Bool)
    (seepage deformation pressure : Euint32) (now : Nat) :
    Except SolError World :=
  if onlyOperator callerIsOperator then
    let newId := w.dataCount + 1
    .ok { w with
      dataCount := newId
      sensorData := writeMap w.sensorData newId
        ⟨seepage, deformation, pressure, now⟩
      riskAssessments := writeMap w.riskAssessments newId
        ⟨FHE.asEuint32 0, FHE.asEbool false, false⟩
      events := w.events ++ [.SensorDataReceived newId now] }
  else
    .error .unauthorized

/-- `requestRiskAssessment` (lines 83–100): requires the record not yet
assessed, builds the five-handle payload (three sensor ciphertexts plus the
two current thresholds) and calls `FHE.requestComputation`. The returned
`reqId` is bound but never stored by the contract; `reqIdFromFhe` is the id
the FHE oracle issues. -/
def requestRiskAssessment (w : World) (callerIsOperator : Bool)
    (dataId : Nat) (reqIdFromFhe : Nat) : Except SolError World :=
  if onlyOperator callerIsOperator then
    if (w.riskAssessments dataId).isAssessed then
      .error (.requireFailed "Already assessed")
    else
      let data := w.sensorData dataId
      let ciphertexts : List Nat :=
        [FHE.toBytes32 data.encryptedSeepage,
         FHE.toBytes32 data.encryptedDeformation,
         FHE.toBytes32 data.encryptedPressure,
         FHE.toBytes32 w.encryptedSeepageThreshold,
         FHE.toBytes32 w.encryptedDeformationThreshold]
      .ok { w with
        fheRequests := w.fheRequests ++ [⟨reqIdFromFhe, ciphertexts⟩]
        events := w.events ++ [.RiskAssessmentRequested dataId] }
  else
    .error .unauthorized

/-- `assessRisk` (lines 103–125), the assessment callback:
`FHE.checkSignatures` first (reverts on failure, modelled by the
environment predicate `verify`), then decodes the results and writes
`riskAssessments[requestId]` — the contract indexes the assessment mapping
directly by the callback's `requestId`; it keeps no map from request ids to
record ids. -/
def assessRisk (verify : Nat → AssessResults → ProofData → Bool)
    (w : World) (requestId : Nat) (results : AssessResults)
    (proof : ProofData) : Except SolError World :=
  if verify requestId results proof then
    let riskScore := results.riskScore
    let warningFlag := results.warningFlag
    .ok { w with
      riskAssessments := writeMap w.riskAssessments requestId
        ⟨FHE.asEuint32 riskScore, FHE.asEbool warningFlag, true⟩
      events :=
        if warningFlag then w.events ++ [.RiskWarningGenerated requestId]
        else w.events }
  else
    .error .invalidProof

/-- `recordMaintenance` (lines 128–135): appends `(block.timestamp, action)`
to `maintenanceHistory[damId]`. -/
def recordMaintenance (w : World) (callerIsOperator : Bool) (damId : Nat)
    (action : String) (now : Nat) : Except SolError World :=
  if onlyOperator callerIsOperator then
    .ok { w with
      maintenanceHistory := writeMap w.maintenanceHistory damId
        (w.maintenanceHistory damId ++ [⟨now, action⟩])
      events := w.events ++ [.MaintenanceRecorded damId action] }
  else
    .error .unauthorized

/-- `updateSafetyThresholds` (lines 138–144): replaces both thresholds. -/
def updateSafetyThresholds (w : World) (callerIsOperator : Bool)
    (newSeepageThreshold newDeformationThreshold : Euint32) :
    Except SolError World :=
  if onlyOperator callerIsOperator then
    .ok { w with
      encryptedSeepageThreshold := newSeepageThreshold
      encryptedDeformationThreshold := newDeformationThreshold }
  else
    .error .unauthorized

/-- `getEncryptedRiskScore` (lines 147–150): view function, requires
`isAssessed`. View functions cannot mutate state, so they are modelled as
pure reads. -/
def getEncryptedRiskScore (w : World) (dataId : Nat) :
    Except SolError Euint32 :=
  if (w.riskAssessments dataId).isAssessed then
    .ok (w.riskAssessments dataId).encryptedRiskScore
  else
    .error (.requireFailed "Not assessed")

/-- `hasWarning` (lines 153–156): view function, requires `isAssessed`,
then decrypts the warning flag. -/
def hasWarning (w : World) (dataId : Nat) : Except SolError Bool :=
  if (w.riskAssessments dataId).isAssessed then
    .ok (FHE.decrypt (w.riskAssessments dataId).encryptedWarningFlag)
  else
    .error (.requireFailed "Not assessed")

/-- `getMaintenanceHistory` (lines 159–161): view function. -/
def getMaintenanceHistory (w : World) (damId : Nat) :
    List MaintenanceRecord :=
  w.maintenanceHistory damId

/-- One successful state-changing call to the contract, with arbitrary
arguments and environment. A reverting call leaves the state unchanged, so
only `.ok` outcomes appear. -/
inductive Step : World → World → Prop where
  | submit (w : World) (c : Bool) (s d p : Euint32) (now : Nat) (w' : World) :
      submitSensorData w c s d p now = .ok w' → Step w w'
  | request (w : World) (c : Bool) (dataId reqId : Nat) (w' : World) :
      requestRiskAssessment w c dataId reqId = .ok w' → Step w w'
  | assess (verify : Nat → AssessResults → ProofData → Bool) (w : World)
      (requestId : Nat) (results : AssessResults) (proof : ProofData)
      (w' : World) :
      assessRisk verify w requestId results proof = .ok w' → Step w w'
  | maintain (w : World) (c : Bool) (damId : Nat) (action : String)
      (now : Nat) (w' : World) :
      recordMaintenance w c damId action now = .ok w' → Step w w'
  | thresholds (w : World) (c : Bool) (ns nd : Euint32) (w' : World) :
      updateSafetyThresholds w c ns nd = .ok w' → Step w w'

/-! ## Helper lemmas -/

/-- A successful contract call never decreases `dataCount`. -/
theorem step_dataCount_mono (u u' : World) (h : Step u u') :
    u.dataCount ≤ u'.dataCount := by
  cases h with
  | submit w c s d p now w' h =>
    simp [submitSensorData, onlyOperator] at h
    subst h
    exact Nat.le_succ _
  | request w c dataId reqId w' h =>
    simp [requestRiskAssessment, onlyOperator] at h
    by_cases ha : (u.riskAssessments dataId).isAssessed
    · simp [ha] at h
    · simp [ha] at h
      subst h
      exact Nat.le_refl _
  | assess verify w requestId results proof w' h =>
    simp [assessRisk] at h
    by_cases hv : verify requestId results proof
    · simp [hv] at h
      subst h
      exact Nat.le_refl _
    · simp [hv] at h
  | maintain w c damId action now w' h =>
    simp [recordMaintenance, onlyOperator] at h
    subst h
    exact Nat.le_refl _
  | thresholds w c ns nd w' h =>
    simp [updateSafetyThresholds, onlyOperator] at h
    subst h
    exact Nat.le_refl _

/-- A successful contract call only ever appends to a maintenance
history: the old history is a prefix of the new one. -/
theorem step_history_append (u u' : World) (h : Step u u') (aId : Nat) :
    ∃ tail, u'.maintenanceHistory aId = u.maintenanceHistory aId ++ tail := by
  cases h with
  | submit w c s d p now w' h =>
    simp [submitSensorData, onlyOperator] at h
    subst h
    exact ⟨[], by simp⟩
  | request w c dataId reqId w' h =>
    simp [requestRiskAssessment, onlyOperator] at h
    by_cases ha : (u.riskAssessments dataId).isAssessed
    · simp [ha] at h
    · simp [ha] at h
      subst h
      exact ⟨[], by simp⟩
  | assess verify w requestId results proof w' h =>
    simp [assessRisk] at h
    by_cases hv : verify requestId results proof
    · simp [hv] at h
      subst h
      exact ⟨[], by simp⟩
    · simp [hv] at h
  | maintain w c damId action now w' h =>
    simp [recordMaintenance, onlyOperator] at h
    subst h
    by_cases he : aId = damId
    · subst he
      exact ⟨[⟨now, action⟩], by simp [writeMap]⟩
    · exact ⟨[], by simp [writeMap, he]⟩
  | thresholds w c ns nd w' h =>
    simp [updateSafetyThresholds, onlyOperator] at h
    subst h
    exact ⟨[], by simp⟩

/-! ## Claim theorems -/

/-- C3: a `deliverAssessment` (`assessRisk`) invocation whose proof fails
verification reverts with the proof-verification error, mutating no state:
`FHE.checkSignatures` is the first statement of the callback, and in the
embedding a reverted call returns `.error` carrying no successor state, so
`isAssessed`, the score, the warning flag and every other store are
unchanged, whatever the supplied `results` payload contains. -/
theorem assessRisk_invalid_proof_reverts
    (verify : Nat → AssessResults → ProofData → Bool) (w : World)
    (requestId : Nat) (results : AssessResults) (proof : ProofData)
    (h : verify requestId results proof = false) :
    assessRisk verify w requestId results proof = .error .invalidProof := by
  simp [assessRisk, h]

/-- Witness for C3: a concrete failing verification at `deployedState`. -/
theorem assessRisk_invalid_proof_reverts_witness :
    assessRisk (fun _ _ _ => false) deployedState 0 ⟨1, true⟩ [] =
      .error .invalidProof :=
  assessRisk_invalid_proof_reverts (fun _ _ _ => false) deployedState 0
    ⟨1, true⟩ [] rfl

/-- C10: the read paths `getEncryptedRiskScore` and `hasWarning` both fail
with the revert message "Not assessed" whenever the record's `isAssessed`
is false — including ids for which nothing was ever submitted, since an
unset mapping key reads as the zero `RiskAssessment` — and return a value
exactly when `isAssessed` is true. Both are Solidity `view` functions,
modelled as pure reads, so they change no state. -/
theorem reads_require_assessment (w : World) (dataId : Nat) :
    ((w.riskAssessments dataId).isAssessed = false →
      getEncryptedRiskScore w dataId =
        .error (.requireFailed "Not assessed") ∧
      hasWarning w dataId = .error (.requireFailed "Not assessed")) ∧
    ((w.riskAssessments dataId).isAssessed = true →
      getEncryptedRiskScore w dataId =
        .ok (w.riskAssessments dataId).encryptedRiskScore ∧
      hasWarning w dataId =
        .ok (w.riskAssessments dataId).encryptedWarningFlag.val) := by
  constructor <;> intro h <;>
    exact ⟨by simp [getEncryptedRiskScore, h], by simp [hasWarning, FHE.decrypt, h]⟩

/-- Witness for C10: at `deployedState`, id 0 was never submitted and both
reads fail with "Not assessed". -/
theorem reads_require_assessment_witness :
    getEncryptedRiskScore deployedState 0 =
      .error (.requireFailed "Not assessed") ∧
    hasWarning deployedState 0 = .error (.requireFailed "Not assessed") :=
  (reads_require_assessment deployedState 0).1 rfl

/-- C8: `submitSensorData` allocates the next id `dataCount + 1` (strictly
increasing, hence unique and never reused — no successful call ever
decreases `dataCount`), stores the submitted ciphertexts, and atomically
creates the paired `RiskAssessment` whose score is a ciphertext of zero,
whose warning flag is a ciphertext of false, and whose `isAssessed` is
false, so reading the assessment record right after submission returns
those defaults. -/
theorem submit_allocates_fresh_id_with_defaults
    (w : World) (c : Bool) (s d p : Euint32) (now : Nat) :
    ∃ w', submitSensorData w c s d p now = .ok w' ∧
      w'.dataCount = w.dataCount + 1 ∧
      w.dataCount < w'.dataCount ∧
      w'.sensorData (w.dataCount + 1) = ⟨s, d, p, now⟩ ∧
      w'.riskAssessments (w.dataCount + 1) =
        ⟨FHE.asEuint32 0, FHE.asEbool false, false⟩ ∧
      (FHE.asEuint32 0).val = 0 ∧ (FHE.asEbool false).val = false ∧
      (∀ u u', Step u u' → u.dataCount ≤ u'.dataCount) := by
  refine ⟨_, rfl, rfl, Nat.lt_succ_self _, ?_, ?_, rfl, rfl,
    step_dataCount_mono⟩ <;> simp [submitSensorData, onlyOperator, writeMap]

/-- Witness for C8 at a concrete submission. -/
theorem submit_allocates_fresh_id_with_defaults_witness :
    ∃ w', submitSensorData deployedState true ⟨1⟩ ⟨2⟩ ⟨3⟩ 10 = .ok w' ∧
      w'.dataCount = deployedState.dataCount + 1 ∧
      deployedState.dataCount < w'.dataCount ∧
      w'.sensorData (deployedState.dataCount + 1) = ⟨⟨1⟩, ⟨2⟩, ⟨3⟩, 10⟩ ∧
      w'.riskAssessments (deployedState.dataCount + 1) =
        ⟨FHE.asEuint32 0, FHE.asEbool false, false⟩ ∧
      (FHE.asEuint32 0).val = 0 ∧ (FHE.asEbool false).val = false ∧
      (∀ u u', Step u u' → u.dataCount ≤ u'.dataCount) :=
  submit_allocates_fresh_id_with_defaults deployedState true ⟨1⟩ ⟨2⟩ ⟨3⟩ 10

/-- C9: the maintenance history of an asset is append-only and ordered
oldest-first: appending E1, E2, E3 via `recordMaintenance` makes
`getMaintenanceHistory` return exactly `[E1, E2, E3]`, and no successful
contract call ever modifies or deletes an appended entry — every step
extends each asset's history on the right only. -/
theorem maintenance_history_append_only
    (w : World) (assetId : Nat) (c1 c2 c3 : Bool)
    (t1 t2 t3 : Nat) (a1 a2 a3 : String)
    (h : w.maintenanceHistory assetId = []) :
    (∃ w1 w2 w3,
      recordMaintenance w c1 assetId a1 t1 = .ok w1 ∧
      recordMaintenance w1 c2 assetId a2 t2 = .ok w2 ∧
      recordMaintenance w2 c3 assetId a3 t3 = .ok w3 ∧
      getMaintenanceHistory w3 assetId = [⟨t1, a1⟩, ⟨t2, a2⟩, ⟨t3, a3⟩]) ∧
    (∀ u u', Step u u' → ∀ aId, ∃ tail,
      u'.maintenanceHistory aId = u.maintenanceHistory aId ++ tail) := by
  refine ⟨⟨_, _, _, rfl, rfl, rfl, ?_⟩, step_history_append⟩
  simp [recordMaintenance, onlyOperator, getMaintenanceHistory, writeMap, h]

/-- Witness for C9: three concrete appends from the freshly deployed
state. -/
theorem maintenance_history_append_only_witness :
    (∃ w1 w2 w3,
      recordMaintenance deployedState true 5 "a" 1 = .ok w1 ∧
      recordMaintenance w1 true 5 "b" 2 = .ok w2 ∧
      recordMaintenance w2 true 5 "c" 3 = .ok w3 ∧
      getMaintenanceHistory w3 5 = [⟨1, "a"⟩, ⟨2, "b"⟩, ⟨3, "c"⟩]) ∧
    (∀ u u', Step u u' → ∀ aId, ∃ tail,
      u'.maintenanceHistory aId = u.maintenanceHistory aId ++ tail) :=
  maintenance_history_append_only deployedState 5 true true true 1 2 3
    "a" "b" "c" rfl

/-- C7: the payload handed to `FHE.requestComputation` contains the
threshold ciphertexts read at registration time, and a threshold update
performed after the request was registered leaves the already-recorded
payload unchanged: after `requestRiskAssessment` and then
`updateSafetyThresholds`, the logged request still carries the
pre-update thresholds of the registration-time state `w`. -/
theorem request_payload_snapshots_thresholds
    (w : World) (c1 c2 : Bool) (dataId reqId : Nat) (ns nd : Euint32)
    (w1 w2 : World)
    (h1 : requestRiskAssessment w c1 dataId reqId = .ok w1)
    (h2 : updateSafetyThresholds w1 c2 ns nd = .ok w2) :
    w2.fheRequests = w.fheRequests ++
      [⟨reqId,
        [(w.sensorData dataId).encryptedSeepage.val,
         (w.sensorData dataId).encryptedDeformation.val,
         (w.sensorData dataId).encryptedPressure.val,
         w.encryptedSeepageThreshold.val,
         w.encryptedDeformationThreshold.val]⟩] := by
  simp [requestRiskAssessment, onlyOperator] at h1
  by_cases ha : (w.riskAssessments dataId).isAssessed
  · simp [ha] at h1
  · simp [ha, FHE.toBytes32] at h1
    simp [updateSafetyThresholds, onlyOperator] at h2
    subst h1
    subst h2
    rfl

/-- Witness for C7: request an assessment from the deployed state, then
replace the thresholds; the logged payload keeps 500 and 100. -/
theorem request_payload_snapshots_thresholds_witness :
    ∃ w1 w2,
      requestRiskAssessment deployedState true 1 7 = .ok w1 ∧
      updateSafetyThresholds w1 true ⟨9⟩ ⟨8⟩ = .ok w2 ∧
      w2.fheRequests = [⟨7, [0, 0, 0, 500, 100]⟩] := by
  refine ⟨_, _, rfl, rfl, ?_⟩
  have h := request_payload_snapshots_thresholds deployedState true true 1 7
    ⟨9⟩ ⟨8⟩ _ _ rfl rfl
  simpa [deployedState, FHE.asEuint32] using h

/-- C1 (code-bug exhibit): the callback does not deliver the result to the
record the resolved request originated from. The contract never stores the
`reqId` returned by `FHE.requestComputation` (the local is unused) and
`assessRisk` writes `riskAssessments[requestId]` directly. Concretely:
record 1 is submitted and its assessment is requested under FHE request id
7; the verified callback for request 7 then writes record 7 — a record that
was never submitted — and leaves record 1 unassessed. -/
theorem assessRisk_ignores_origin_record :
    ∃ w1 w2 w3,
      submitSensorData deployedState true ⟨1⟩ ⟨2⟩ ⟨3⟩ 10 = .ok w1 ∧
      requestRiskAssessment w1 true 1 7 = .ok w2 ∧
      assessRisk (fun _ _ _ => true) w2 7 ⟨42, false⟩ [] = .ok w3 ∧
      (w3.riskAssessments 1).isAssessed = false ∧
      (w3.riskAssessments 7).isAssessed = true := by
  refine ⟨_, _, _, rfl, rfl, rfl, ?_, ?_⟩ <;> rfl

/-- C2 (code-bug exhibit): delivery is not at-most-once per request id.
The contract keeps no table of outstanding requests, so a second callback
for the same request id 7 — here with different content — succeeds again
instead of failing with an unknown-request error, and overwrites the
previously delivered assessment. -/
theorem assessRisk_replay_not_rejected :
    ∃ w1 w2 w3 w4,
      submitSensorData deployedState true ⟨1⟩ ⟨2⟩ ⟨3⟩ 10 = .ok w1 ∧
      requestRiskAssessment w1 true 1 7 = .ok w2 ∧
      assessRisk (fun _ _ _ => true) w2 7 ⟨10, false⟩ [] = .ok w3 ∧
      assessRisk (fun _ _ _ => true) w3 7 ⟨99, true⟩ [] = .ok w4 ∧
      (w3.riskAssessments 7).encryptedRiskScore = FHE.asEuint32 10 ∧
      (w4.riskAssessments 7).encryptedRiskScore = FHE.asEuint32 99 := by
  refine ⟨_, _, _, _, rfl, rfl, rfl, rfl, ?_, ?_⟩ <;> rfl

/-- C4 (code-bug exhibit): `requestRiskAssessment` only checks
`isAssessed`; it keeps no record of in-flight requests, so a second
request for the same still-pending record succeeds — and sends a second
computation payload — instead of failing with a request-in-flight error. -/
theorem request_no_inflight_guard :
    ∃ w1 w2 w3,
      submitSensorData deployedState true ⟨1⟩ ⟨2⟩ ⟨3⟩ 10 = .ok w1 ∧
      requestRiskAssessment w1 true 1 7 = .ok w2 ∧
      requestRiskAssessment w2 true 1 8 = .ok w3 ∧
      w3.fheRequests.length = 2 := by
  exact ⟨_, _, _, rfl, rfl, rfl, rfl⟩

/-- C5 (code-bug exhibit): the `onlyOperator` modifier's authorization
check is commented out in the source, so a caller without the operator
capability can successfully invoke all four operator-gated operations;
none of them reverts with an unauthorized error. -/
theorem operator_gate_admits_everyone :
    (∃ w, submitSensorData deployedState false ⟨1⟩ ⟨2⟩ ⟨3⟩ 10 = .ok w) ∧
    (∃ w, requestRiskAssessment deployedState false 1 7 = .ok w) ∧
    (∃ w, updateSafetyThresholds deployedState false ⟨9⟩ ⟨8⟩ = .ok w) ∧
    (∃ w, recordMaintenance deployedState false 1 "inspection" 10 = .ok w) :=
  ⟨⟨_, rfl⟩, ⟨_, rfl⟩, ⟨_, rfl⟩, ⟨_, rfl⟩⟩

/-- C6 (code-bug exhibit): `isAssessed` is not monotone on the deployed
code. A verified callback for the never-issued request id 1 marks record 1
assessed; the next `submitSensorData` allocates `dataCount + 1 = 1` and
overwrites that same slot with `isAssessed = false`. Both calls are
legal contract steps, so a record's flag can flip from true back to
false. -/
theorem isAssessed_not_monotone :
    ∃ w1 w2,
      assessRisk (fun _ _ _ => true) deployedState 1 ⟨7, true⟩ [] = .ok w1 ∧
      (w1.riskAssessments 1).isAssessed = true ∧
      submitSensorData w1 true ⟨1⟩ ⟨2⟩ ⟨3⟩ 10 = .ok w2 ∧
      (w2.riskAssessments 1).isAssessed = false ∧
      Step deployedState w1 ∧ Step w1 w2 := by
  refine ⟨_, _, rfl, rfl, rfl, rfl, ?_, ?_⟩
  · exact Step.assess (fun _ _ _ => true) deployedState 1 ⟨7, true⟩ [] _ rfl
  · exact Step.submit _ true ⟨1⟩ ⟨2⟩ ⟨3⟩ 10 _ rfl
